import Mathlib

/-!
Verification of the image2 repository: a typed image-buffer abstraction with
two thin I/O adapters, one shelling out to ImageMagick/GraphicsMagick
(`src/io/magick.rs`) and one wrapping a V4L capture library
(`src/io/v4l.rs`), plus a compile-time colorspace tag registry
(`src/color.rs`).

External effects (subprocess spawning, pipe I/O, camera frames) are embedded
by passing an explicit outcome record describing what each external call
returned; the pure control flow and command-argument construction of the
source are translated directly.
-/

set_option autoImplicit false

namespace image2

/-! ## Colorspace registry (`src/color.rs`)

The Rust `Color` trait exposes three static, pure functions per colorspace
type; the nine `make_color!` instantiations become nine constant values of a
record type. -/

/-- Colorspace descriptor: the three static functions of the Rust `Color`
trait (`name()`, `channels()`, `has_alpha()`) as record fields. -/
structure Color where
  name : String
  channels : Nat
  has_alpha : Bool
  deriving DecidableEq, Repr

def Gray : Color := { name := "gray", channels := 1, has_alpha := false }

def Rgb : Color := { name := "rgb", channels := 3, has_alpha := false }

def Bgr : Color := { name := "bgr", channels := 3, has_alpha := false }

def RgbPacked : Color := { name := "rgb_packed", channels := 1, has_alpha := false }

def Rgba : Color := { name := "rgba", channels := 4, has_alpha := true }

def Bgra : Color := { name := "bgra", channels := 4, has_alpha := true }

def RgbaPacked : Color := { name := "rgba_packed", channels := 1, has_alpha := false }

def Cmyk : Color := { name := "cmyk", channels := 4, has_alpha := false }

def Yuv : Color := { name := "yuv", channels := 3, has_alpha := false }

/-! ## Pixel element type

`src/ty.rs` is not under `src/`; only its contract is used by
`src/io/magick.rs` (`std::mem::size_of::<T>()` and `T::is_float()`). -/

/-- Modelled from the spec: the `Type` trait of `ty.rs` is not under `src/`.
Per §3, a pixel element type is "an external contract giving: element byte
size, and whether the element is floating-point". -/
structure PixelType where
  size : Nat
  is_float : Bool
  deriving DecidableEq, Repr

/-! ## Magick command profiles and argument construction (`src/io/magick.rs`) -/

/-- The error enum of `src/io/magick.rs`. -/
inductive Error where
  | InvalidImageShape
  | InvalidColor
  | FileDoesNotExist
  | InvalidImageData
  | UnableToExecuteCommand
  | ErrorWritingImage
  deriving DecidableEq, Repr

/-- `Magick`: a pair of argument-vector prefixes. -/
structure Magick where
  identify : List String
  convert : List String
  deriving DecidableEq, Repr

def IM : Magick := { identify := ["identify"], convert := ["convert"] }

def GM : Magick := { identify := ["gm", "identify"], convert := ["gm", "convert"] }

/-- `kind::<C>()`: the sink/source token `<C::name()>:-`. -/
def kind (C : Color) : String := C.name ++ ":-"

/-- `depth::<T, C>`: appends `-depth <8 * size_of T>` and, when `T::is_float()`,
the pair `-define quantum:format=floating-point`. -/
def depthArgs (T : PixelType) : List String :=
  ["-depth", toString (T.size * 8)] ++
    (if T.is_float then ["-define", "quantum:format=floating-point"] else [])

/-- Argument vector of the identify invocation in `Magick::get_image_shape`:
`<identify-prefix> -format "%w %h" <path>`. -/
def identifyArgs (m : Magick) (path : String) : List String :=
  m.identify ++ ["-format", "%w %h", path]

/-- Argument vector of the convert invocation in `Magick::read`:
`<convert-prefix> <path> -depth ... [-define ...] <C::name()>:-`. -/
def readConvertArgs (m : Magick) (T : PixelType) (C : Color) (path : String) : List String :=
  m.convert ++ ([path] ++ depthArgs T ++ [kind C])

/-- `format!("{}x{}", width, height)` used as the `-size` value. -/
def sizeArg (width height : Nat) : String := toString width ++ "x" ++ toString height

/-- A spawned command: its argument vector and which standard streams are
piped (`Stdio::piped()`). -/
structure Cmd where
  args : List String
  stdin_piped : Bool
  stdout_piped : Bool
  deriving DecidableEq, Repr

/-- Command built by `Magick::write`: `<convert-prefix> -depth ... [-define ...]
-size <W>x<H> <C::name()>:- <path>`, with stdin piped. -/
def writeCmd (m : Magick) (T : PixelType) (C : Color) (width height : Nat)
    (path : String) : Cmd :=
  { args := m.convert ++ (depthArgs T ++ ["-size", sizeArg width height, kind C, path])
    stdin_piped := true
    stdout_piped := false }

/-- Command built by `Magick::encode`: as `writeCmd` but the sink is
`<format>:-` and stdout is piped too. -/
def encodeCmd (m : Magick) (T : PixelType) (C : Color) (width height : Nat)
    (format : String) : Cmd :=
  { args := m.convert ++ (depthArgs T ++ ["-size", sizeArg width height, kind C, format ++ ":-"])
    stdin_piped := true
    stdout_piped := true }

/-! ## Shape query (`Magick::get_image_shape`)

The identify subprocess is embedded as the outcome of
`Command::output()` + `String::from_utf8`: it either fails to run, yields
non-UTF8 stdout, or yields a decoded string. `str::split(' ')`,
`str::trim` and `str::parse::<usize>()` are modelled on character lists. -/

/-- Outcome of running the identify command and UTF8-decoding its stdout. -/
inductive ProcOutput where
  | spawnErr
  | nonUtf8
  | utf8 (s : String)
  deriving DecidableEq, Repr

/-- Model of Rust `str::split(' ')`: splits at every single space, keeping
empty pieces (between consecutive spaces and at both ends). -/
def splitOnSpace (cs : List Char) : List (List Char) :=
  cs.foldr
    (fun c acc =>
      if c = ' ' then [] :: acc
      else
        match acc with
        | [] => [[c]]
        | t :: ts => (c :: t) :: ts)
    [[]]

/-- Whitespace test used by the `trim` model: the Unicode White_Space
property, as recognised by Rust `char::is_whitespace` — U+0009..U+000D
(tab, LF, VT, FF, CR), U+0020, U+0085, U+00A0, U+1680, U+2000..U+200A,
U+2028, U+2029, U+202F, U+205F, U+3000. -/
def isWs (c : Char) : Bool :=
  (0x09 ≤ c.toNat && c.toNat ≤ 0x0D) || c.toNat == 0x20 || c.toNat == 0x85 ||
    c.toNat == 0xA0 || c.toNat == 0x1680 ||
    (0x2000 ≤ c.toNat && c.toNat ≤ 0x200A) ||
    c.toNat == 0x2028 || c.toNat == 0x2029 || c.toNat == 0x202F ||
    c.toNat == 0x205F || c.toNat == 0x3000

/-- Model of Rust `str::trim`: drop leading and trailing whitespace. -/
def trimChars (cs : List Char) : List Char :=
  ((cs.dropWhile isWs).reverse.dropWhile isWs).reverse

/-- Numeric value of a digit string. -/
def digitsToNat (cs : List Char) : Nat :=
  cs.foldl (fun acc c => acc * 10 + (c.toNat - 48)) 0

/-- Model of Rust `str::parse::<usize>()`: optional leading `+`, then one or
more ASCII digits, value below `2 ^ 64` (64-bit `usize`). -/
def parseUsizeChars (cs : List Char) : Option Nat :=
  let ds := match cs with
    | '+' :: rest => rest
    | _ => cs
  if ds = [] then none
  else if ds.all (fun c => c.isDigit) then
    let n := digitsToNat ds
    if n < 2 ^ 64 then some n else none
  else none

/-- The tail of `Magick::get_image_shape`: after collecting the per-token
parse results `t`, fail when `t.len() < 2`, else match on `(t[0], t[1])`. -/
def parseShape (t : List (Option Nat)) : Except Error (Nat × Nat) :=
  match t with
  | [] => .error .InvalidImageShape
  | [_] => .error .InvalidImageShape
  | x :: y :: _ =>
    match x, y with
    | some a, some b => .ok (a, b)
    | _, _ => .error .InvalidImageShape

/-- Result of `Magick::get_image_shape` given the identify outcome: spawn
failure and non-UTF8 stdout map to `InvalidImageShape`; otherwise the stdout
string is split on spaces, each piece trimmed and parsed, and the first two
results inspected. -/
def shapeResult (o : ProcOutput) : Except Error (Nat × Nat) :=
  match o with
  | .spawnErr => .error .InvalidImageShape
  | .nonUtf8 => .error .InvalidImageShape
  | .utf8 s =>
      parseShape ((splitOnSpace s.toList).map (fun a => parseUsizeChars (trimChars a)))

/-- `Magick::get_image_shape` as a method: the argument vector it builds and
the result determined by the subprocess outcome. -/
def Magick.get_image_shape (m : Magick) (path : String) (o : ProcOutput) :
    List String × Except Error (Nat × Nat) :=
  (identifyArgs m path, shapeResult o)

/-! ## Typed image buffer -/

/-- Modelled from the spec: `image_buf.rs` is not under `src/`. Per §3/§4.2 a
Typed Image Buffer is a triple (width, height, flat data sequence), and
`new`/`new_from` stores the triple without validating
`data.length = width * height * channels`. -/
structure ImageBuf (α : Type) where
  width : Nat
  height : Nat
  data : List α
  deriving DecidableEq, Repr

/-- Modelled from the spec: `ImageBuf::new_from(width, height, data)` wraps
the given data without any size validation. -/
def ImageBuf.new_from {α : Type} (width height : Nat) (data : List α) : ImageBuf α :=
  { width := width, height := height, data := data }

/-- Modelled from the spec: `shape()` returns
`(width, height, channel_count)` where the channel count comes from the
colorspace tag. -/
def ImageBuf.shape {α : Type} (C : Color) (img : ImageBuf α) : Nat × Nat × Nat :=
  (img.width, img.height, C.channels)

/-! ## `Magick::read` -/

/-- `Vec::from_raw_parts(ptr as *mut T, len / size_of::<T>(), ..)`: the
stdout bytes reinterpreted as `bytes.length / size` elements of `size`
bytes each; a trailing remainder shorter than `size` is dropped. -/
def chunkBytes (size : Nat) (bs : List Nat) : List (List Nat) :=
  (List.range (bs.length / size)).map (fun i => (bs.drop (i * size)).take size)

/-- Outcomes of the two subprocess invocations made by `Magick::read`:
the identify run, and the convert run (`none` when `cmd.output()` errs,
otherwise the raw stdout bytes). -/
structure ReadOutcome where
  identify : ProcOutput
  convert : Option (List Nat)
  deriving DecidableEq, Repr

/-- Result of `Magick::read`: propagate `get_image_shape` failure, fail with
`InvalidImageData` when the convert command cannot run, else reinterpret the
stdout bytes and wrap them with the previously queried shape. -/
def readResult (T : PixelType) (o : ReadOutcome) : Except Error (ImageBuf (List Nat)) :=
  match shapeResult o.identify with
  | .error e => .error e
  | .ok (width, height) =>
    match o.convert with
    | none => .error .InvalidImageData
    | some bytes => .ok (ImageBuf.new_from width height (chunkBytes T.size bytes))

/-- `Magick::read` as a method: the identify and convert argument vectors it
builds, and the result determined by the subprocess outcomes. -/
def Magick.read (m : Magick) (T : PixelType) (C : Color) (path : String) (o : ReadOutcome) :
    (List String × List String) × Except Error (ImageBuf (List Nat)) :=
  ((identifyArgs m path, readConvertArgs m T C path), readResult T o)

/-! ## `Magick::write` and `Magick::encode` -/

/-- Outcomes of the external interactions of `Magick::write`/`Magick::encode`:
whether `cmd.spawn()` succeeded, whether `stdin.write_all` succeeded, the
result of `proc.wait()` (`some code` on `Ok(status)`, `none` on `Err`), and
the result of draining stdout (`encode` only). -/
structure RunOutcome where
  spawned : Bool
  wrote : Bool
  waited : Option Int
  drained : Option (List Nat)
  deriving DecidableEq, Repr

/-- Result of `Magick::write`: `UnableToExecuteCommand` when spawn fails,
`ErrorWritingImage` when the buffer cannot be fully written to the child's
stdin, `UnableToExecuteCommand` when waiting errors, and `Ok(())` on any
exit status. -/
def writeResult (o : RunOutcome) : Except Error Unit :=
  if o.spawned = false then .error .UnableToExecuteCommand
  else if o.wrote = false then .error .ErrorWritingImage
  else
    match o.waited with
    | some _ => .ok ()
    | none => .error .UnableToExecuteCommand

/-- Result of `Magick::encode`: as `writeResult`, but after a successful wait
stdout is drained with `read_to_end`, failing with `InvalidImageData`, and
the drained bytes are returned. -/
def encodeResult (o : RunOutcome) : Except Error (List Nat) :=
  if o.spawned = false then .error .UnableToExecuteCommand
  else if o.wrote = false then .error .ErrorWritingImage
  else
    match o.waited with
    | some _ =>
      match o.drained with
      | some bytes => .ok bytes
      | none => .error .InvalidImageData
    | none => .error .UnableToExecuteCommand

/-- `Magick::write` as a method: the command it builds, and the result
determined by the external outcomes. -/
def Magick.write (m : Magick) (T : PixelType) (C : Color) (width height : Nat)
    (path : String) (o : RunOutcome) : Cmd × Except Error Unit :=
  (writeCmd m T C width height path, writeResult o)

/-- `Magick::encode` as a method: the command it builds, and the result
determined by the external outcomes. -/
def Magick.encode (m : Magick) (T : PixelType) (C : Color) (width height : Nat)
    (format : String) (o : RunOutcome) : Cmd × Except Error (List Nat) :=
  (encodeCmd m T C width height format, encodeResult o)

/-! ## Global default profile and free functions

`static mut DEFAULT: Magick = IM` is embedded by passing the current value of
`DEFAULT` explicitly: `set_default` maps the old state to the new one, and
the free `read`/`write` consult the state they are given. -/

/-- `set_default(magick)`: the new value of `DEFAULT` is the argument,
whatever the old value was. -/
def set_default (magick : Magick) (_old : Magick) : Magick := magick

/-- The free `read`: delegates to `DEFAULT.read`, where `current` is the
value of the global `DEFAULT` at call time. -/
def read (current : Magick) (T : PixelType) (C : Color) (path : String) (o : ReadOutcome) :
    (List String × List String) × Except Error (ImageBuf (List Nat)) :=
  Magick.read current T C path o

/-- The free `write`: delegates to `DEFAULT.write`. -/
def write (current : Magick) (T : PixelType) (C : Color) (width height : Nat)
    (path : String) (o : RunOutcome) : Cmd × Except Error Unit :=
  Magick.write current T C width height path o

end image2

/-! ## Webcam capture adapter (`src/io/v4l.rs`) -/

namespace image2.v4l

/-- The fields of `rscam::Config` that `Webcam::config` sets: the fourcc
pixel-format tag, the resolution, and the frame interval. -/
structure Config where
  format : String
  resolution : Nat × Nat
  interval : Nat × Nat
  deriving DecidableEq, Repr

/-- The `Webcam` struct: the stored target resolution (the `rscam::Camera`
handle itself is external). -/
structure Webcam where
  width : Nat
  height : Nat
  deriving DecidableEq, Repr

/-- `Webcam::config(width, height)`: format `b"RGB3"`, the given resolution,
interval `(1, 30)`. -/
def Webcam.config (width height : Nat) : Config :=
  { format := "RGB3", resolution := (width, height), interval := (1, 30) }

/-- `Webcam::new(device, width, height)`: stores the resolution (device
opening is external). -/
def Webcam.new (_device : String) (width height : Nat) : Webcam :=
  { width := width, height := height }

/-- The configuration `Webcam::start` passes to `Camera::start`: built by
`Self::config(self.width, self.height)` and nowhere else. -/
def Webcam.startConfig (cam : Webcam) : Config :=
  Webcam.config cam.width cam.height

/-- A captured frame as delivered by the capture library: its reported
resolution and its pixel bytes. -/
structure Frame where
  resolution : Nat × Nat
  data : List Nat
  deriving DecidableEq, Repr

/-- `Webcam::capture`: on a delivered frame (`none` models a device error),
wrap a copy of the frame's bytes with the frame's own reported resolution. -/
def Webcam.capture (_cam : Webcam) (frame : Option Frame) : Option (image2.ImageBuf Nat) :=
  frame.map (fun f => image2.ImageBuf.new_from f.resolution.1 f.resolution.2 f.data)

end image2.v4l

namespace image2

/-- Every `parseShape` result is either `ok` or the unified
`InvalidImageShape` error. -/
theorem parseShape_cases (t : List (Option Nat)) :
    (∃ a b, parseShape t = Except.ok (a, b)) ∨
      parseShape t = Except.error Error.InvalidImageShape := by
  rcases t with _ | ⟨x, _ | ⟨y, r⟩⟩
  · right; rfl
  · right; rfl
  · rcases x with _ | a <;> rcases y with _ | b <;> simp [parseShape]

end image2

/-- C7: each of the nine built-in colorspace tags has exactly the documented
`name`, `channels` and `has_alpha` values, and no channel count is zero;
as Lean record constants they are pure, so every access returns the same
value. -/
theorem image2.color_registry_spec :
    (image2.Gray.name = "gray" ∧ image2.Gray.channels = 1 ∧ image2.Gray.has_alpha = false) ∧
    (image2.Rgb.name = "rgb" ∧ image2.Rgb.channels = 3 ∧ image2.Rgb.has_alpha = false) ∧
    (image2.Bgr.name = "bgr" ∧ image2.Bgr.channels = 3 ∧ image2.Bgr.has_alpha = false) ∧
    (image2.RgbPacked.name = "rgb_packed" ∧ image2.RgbPacked.channels = 1 ∧
      image2.RgbPacked.has_alpha = false) ∧
    (image2.Rgba.name = "rgba" ∧ image2.Rgba.channels = 4 ∧ image2.Rgba.has_alpha = true) ∧
    (image2.Bgra.name = "bgra" ∧ image2.Bgra.channels = 4 ∧ image2.Bgra.has_alpha = true) ∧
    (image2.RgbaPacked.name = "rgba_packed" ∧ image2.RgbaPacked.channels = 1 ∧
      image2.RgbaPacked.has_alpha = false) ∧
    (image2.Cmyk.name = "cmyk" ∧ image2.Cmyk.channels = 4 ∧ image2.Cmyk.has_alpha = false) ∧
    (image2.Yuv.name = "yuv" ∧ image2.Yuv.channels = 3 ∧ image2.Yuv.has_alpha = false) ∧
    (0 < image2.Gray.channels ∧ 0 < image2.Rgb.channels ∧ 0 < image2.Bgr.channels ∧
      0 < image2.RgbPacked.channels ∧ 0 < image2.Rgba.channels ∧ 0 < image2.Bgra.channels ∧
      0 < image2.RgbaPacked.channels ∧ 0 < image2.Cmyk.channels ∧ 0 < image2.Yuv.channels) := by
  decide

/-- C4: the identify and convert argument vectors are pure functions of the
pixel type, colorspace and path (never of buffer contents); under each
profile they are the profile's prefix followed by one profile-independent
suffix, the suffix holds `-depth <8 x byte size>` and carries the
`-define quantum:format=floating-point` pair exactly for floating-point
pixel types, ends in the sink token `<C.name>:-`, and the two built-in
profiles have the documented prefixes. -/
theorem image2.command_args_profile :
    ∀ (T : image2.PixelType) (C : image2.Color) (path : String),
      (∃ suffix : List String,
        suffix = [path] ++ image2.depthArgs T ++ [image2.kind C] ∧
        image2.readConvertArgs image2.IM T C path = image2.IM.convert ++ suffix ∧
        image2.readConvertArgs image2.GM T C path = image2.GM.convert ++ suffix) ∧
      (∃ isuffix : List String,
        isuffix = ["-format", "%w %h", path] ∧
        image2.identifyArgs image2.IM path = image2.IM.identify ++ isuffix ∧
        image2.identifyArgs image2.GM path = image2.GM.identify ++ isuffix) ∧
      (∀ n : Nat,
        image2.depthArgs { size := n, is_float := true } =
          ["-depth", toString (n * 8), "-define", "quantum:format=floating-point"] ∧
        image2.depthArgs { size := n, is_float := false } = ["-depth", toString (n * 8)]) ∧
      image2.kind C = C.name ++ ":-" ∧
      image2.IM.identify = ["identify"] ∧ image2.IM.convert = ["convert"] ∧
      image2.GM.identify = ["gm", "identify"] ∧ image2.GM.convert = ["gm", "convert"] := by
  intro T C path
  refine ⟨⟨[path] ++ image2.depthArgs T ++ [image2.kind C], rfl, rfl, rfl⟩,
    ⟨["-format", "%w %h", path], rfl, rfl, rfl⟩, ?_, rfl, rfl, rfl, rfl, rfl⟩
  intro n
  exact ⟨rfl, rfl⟩

/-- C2 (amended): `get_image_shape` succeeds with `(w, h)` exactly when the
identify process ran, its stdout is valid UTF-8, splitting that output on
single spaces yields at least two pieces, and the first two pieces (trimmed)
parse as unsigned 64-bit integers `w` and `h` (zero accepted); in every
other case the single unified error `InvalidImageShape` is returned. -/
theorem image2.get_image_shape_spec :
    ∀ (o : image2.ProcOutput) (w h : Nat),
      (image2.shapeResult o = Except.ok (w, h) ↔
        ∃ (s : String) (a b : List Char) (rest : List (List Char)),
          o = image2.ProcOutput.utf8 s ∧
          image2.splitOnSpace s.toList = a :: b :: rest ∧
          image2.parseUsizeChars (image2.trimChars a) = some w ∧
          image2.parseUsizeChars (image2.trimChars b) = some h) ∧
      ((∃ w' h', image2.shapeResult o = Except.ok (w', h')) ∨
        image2.shapeResult o = Except.error image2.Error.InvalidImageShape) := by
  intro o w h
  refine ⟨?_, ?_⟩
  · cases o with
    | spawnErr => simp [image2.shapeResult]
    | nonUtf8 => simp [image2.shapeResult]
    | utf8 s =>
      simp only [image2.shapeResult]
      constructor
      · intro hok
        rcases hl : image2.splitOnSpace s.toList with _ | ⟨a, rest1⟩
        · rw [hl] at hok
          simp [image2.parseShape] at hok
        · rcases rest1 with _ | ⟨b, rest⟩
          · rw [hl] at hok
            simp [image2.parseShape] at hok
          · rw [hl] at hok
            rcases ha : image2.parseUsizeChars (image2.trimChars a) with _ | va
            · rw [List.map_cons, List.map_cons, ha] at hok
              rcases hb2 : image2.parseUsizeChars (image2.trimChars b) with _ | vb <;>
                rw [hb2] at hok <;> simp [image2.parseShape] at hok
            · rcases hb : image2.parseUsizeChars (image2.trimChars b) with _ | vb
              · rw [List.map_cons, List.map_cons, ha, hb] at hok
                simp [image2.parseShape] at hok
              · rw [List.map_cons, List.map_cons, ha, hb] at hok
                simp only [image2.parseShape, Except.ok.injEq, Prod.mk.injEq] at hok
                exact ⟨s, a, b, rest, rfl, hl, by rw [ha, hok.1], by rw [hb, hok.2]⟩
      · rintro ⟨s', a, b, rest, hs, hsplit, ha, hb⟩
        injection hs with hss
        subst hss
        rw [hsplit, List.map_cons, List.map_cons, ha, hb]
        rfl
  · cases o with
    | spawnErr => right; rfl
    | nonUtf8 => right; rfl
    | utf8 s => exact image2.parseShape_cases _

/-- C2 counterexample: on identify output `"0 480"` the code succeeds with
`(0, 480)`, although `0` is not a positive integer — so "parses into two
positive integers" does not characterise success. -/
theorem image2.get_image_shape_zero_counterexample :
    image2.shapeResult (image2.ProcOutput.utf8 "0 480") = Except.ok (0, 480) ∧
      ¬ (0 < 0) := by
  refine ⟨rfl, ?_⟩
  decide

/-- Every `shapeResult` is either `ok` or the unified `InvalidImageShape`. -/
theorem image2.shapeResult_cases (o : image2.ProcOutput) :
    image2.shapeResult o = Except.error image2.Error.InvalidImageShape ∨
      ∃ w h, image2.shapeResult o = Except.ok (w, h) := by
  cases o with
  | spawnErr => left; rfl
  | nonUtf8 => left; rfl
  | utf8 s =>
    rcases image2.parseShape_cases
        ((image2.splitOnSpace s.toList).map
          (fun a => image2.parseUsizeChars (image2.trimChars a))) with ⟨a, b, hab⟩ | herr
    · right; exact ⟨a, b, hab⟩
    · left; exact herr

/-- C1: on success, `Magick::read` returns a buffer whose width and height
are exactly the pair returned by the preceding `get_image_shape` call, and
whose data is the convert stdout bytes reinterpreted as
`byte_length / element_size` elements (floor division); the hypotheses
require neither that the byte length is a multiple of the element size nor
that the element count equals width * height * channels. -/
theorem image2.read_success :
    ∀ (m : image2.Magick) (T : image2.PixelType) (C : image2.Color) (path : String)
      (o : image2.ReadOutcome) (w h : Nat) (bytes : List Nat),
      image2.shapeResult o.identify = Except.ok (w, h) →
      o.convert = some bytes →
      (image2.Magick.read m T C path o).2 =
          Except.ok (image2.ImageBuf.new_from w h (image2.chunkBytes T.size bytes)) ∧
        (image2.chunkBytes T.size bytes).length = bytes.length / T.size := by
  intro m T C path o w h bytes hshape hconv
  refine ⟨?_, ?_⟩
  · show image2.readResult T o = _
    simp [image2.readResult, hshape, hconv]
  · simp [image2.chunkBytes]

/-- C1 witness: identify reports `1 1`, element size is 2 and the convert
stdout has 5 bytes; `read` still succeeds, with `5 / 2 = 2` elements, even
though 5 is not a multiple of 2 and 2 differs from
width * height * channels = 3 for rgb. -/
theorem image2.read_success_witness :
    (image2.shapeResult (image2.ProcOutput.utf8 "1 1") = Except.ok (1, 1) ∧
        (some [0, 1, 2, 3, 4] : Option (List Nat)) = some [0, 1, 2, 3, 4]) ∧
      ((image2.Magick.read image2.IM { size := 2, is_float := false } image2.Rgb "img.png"
              { identify := image2.ProcOutput.utf8 "1 1", convert := some [0, 1, 2, 3, 4] }).2 =
          Except.ok (image2.ImageBuf.new_from 1 1 (image2.chunkBytes 2 [0, 1, 2, 3, 4])) ∧
        (image2.chunkBytes 2 [0, 1, 2, 3, 4]).length = [0, 1, 2, 3, 4].length / 2) ∧
      ¬ (5 % 2 = 0) ∧
      (image2.chunkBytes 2 [0, 1, 2, 3, 4]).length ≠ 1 * 1 * image2.Rgb.channels :=
  ⟨⟨rfl, rfl⟩,
    image2.read_success image2.IM { size := 2, is_float := false } image2.Rgb "img.png"
      { identify := image2.ProcOutput.utf8 "1 1", convert := some [0, 1, 2, 3, 4] }
      1 1 [0, 1, 2, 3, 4] rfl rfl,
    by decide, by decide⟩

/-- C3: `Magick::write` fails with `UnableToExecuteCommand` exactly when the
spawn fails or waiting errors, fails with `ErrorWritingImage` exactly when
the buffer cannot be fully written to the child's stdin, and returns `Ok`
exactly when spawn, write and wait all succeed — for any exit status, so a
non-zero exit of the external tool is not treated as a failure. -/
theorem image2.write_spec :
    ∀ (m : image2.Magick) (T : image2.PixelType) (C : image2.Color) (w h : Nat)
      (path : String) (o : image2.RunOutcome),
      ((image2.Magick.write m T C w h path o).2 = Except.ok () ↔
        o.spawned = true ∧ o.wrote = true ∧ ∃ c, o.waited = some c) ∧
      ((image2.Magick.write m T C w h path o).2 =
            Except.error image2.Error.ErrorWritingImage ↔
        o.spawned = true ∧ o.wrote = false) ∧
      ((image2.Magick.write m T C w h path o).2 =
            Except.error image2.Error.UnableToExecuteCommand ↔
        (o.spawned = false ∨ (o.spawned = true ∧ o.wrote = true ∧ o.waited = none))) ∧
      (∀ (code : Int) (d : Option (List Nat)),
        image2.writeResult
            { spawned := true, wrote := true, waited := some code, drained := d } =
          Except.ok ()) := by
  intro m T C w h path o
  rcases o with ⟨sp, wr, wa, dr⟩
  refine ⟨?_, ?_, ?_, fun code d => rfl⟩ <;>
    cases sp <;> cases wr <;> rcases wa with _ | c <;>
      simp [image2.Magick.write, image2.writeResult]

/-- C8: `Magick::encode` builds exactly the convert command of
`Magick::write` with `<format>:-` in place of the output path and stdout
additionally piped, and it has the same failure modes as `write` plus
`InvalidImageData` exactly when, after a successful run, stdout cannot be
drained; on success it returns the drained stdout bytes. -/
theorem image2.encode_spec :
    ∀ (m : image2.Magick) (T : image2.PixelType) (C : image2.Color) (w h : Nat)
      (path format : String) (o : image2.RunOutcome),
      (image2.encodeCmd m T C w h format).args =
          (image2.writeCmd m T C w h (format ++ ":-")).args ∧
      (image2.encodeCmd m T C w h format).stdin_piped = true ∧
      (image2.encodeCmd m T C w h format).stdout_piped = true ∧
      (image2.writeCmd m T C w h path).stdin_piped = true ∧
      (image2.writeCmd m T C w h path).stdout_piped = false ∧
      (∀ bytes : List Nat,
        (image2.Magick.encode m T C w h format o).2 = Except.ok bytes ↔
          o.spawned = true ∧ o.wrote = true ∧ (∃ c, o.waited = some c) ∧
            o.drained = some bytes) ∧
      ((image2.Magick.encode m T C w h format o).2 =
            Except.error image2.Error.UnableToExecuteCommand ↔
        (image2.Magick.write m T C w h path o).2 =
            Except.error image2.Error.UnableToExecuteCommand) ∧
      ((image2.Magick.encode m T C w h format o).2 =
            Except.error image2.Error.ErrorWritingImage ↔
        (image2.Magick.write m T C w h path o).2 =
            Except.error image2.Error.ErrorWritingImage) ∧
      ((image2.Magick.encode m T C w h format o).2 =
            Except.error image2.Error.InvalidImageData ↔
        (image2.Magick.write m T C w h path o).2 = Except.ok () ∧ o.drained = none) := by
  intro m T C w h path format o
  rcases o with ⟨sp, wr, wa, dr⟩
  refine ⟨rfl, rfl, rfl, rfl, rfl, ?_, ?_, ?_, ?_⟩ <;>
    cases sp <;> cases wr <;> rcases wa with _ | c <;> rcases dr with _ | bs <;>
      simp [image2.Magick.encode, image2.Magick.write, image2.encodeResult,
        image2.writeResult]

/-- C9: for every outcome, `get_image_shape`, `read`, `write` and `encode`
return either `Ok` or one of `InvalidImageShape`, `InvalidImageData`,
`UnableToExecuteCommand`, `ErrorWritingImage` — never `InvalidColor` or
`FileDoesNotExist`. -/
theorem image2.error_variants_unused :
    ∀ (oS : image2.ProcOutput) (T : image2.PixelType) (oR : image2.ReadOutcome)
      (oW : image2.RunOutcome),
      (image2.shapeResult oS = Except.error image2.Error.InvalidImageShape ∨
        ∃ w h, image2.shapeResult oS = Except.ok (w, h)) ∧
      (image2.readResult T oR = Except.error image2.Error.InvalidImageShape ∨
        image2.readResult T oR = Except.error image2.Error.InvalidImageData ∨
        ∃ img, image2.readResult T oR = Except.ok img) ∧
      (image2.writeResult oW = Except.error image2.Error.UnableToExecuteCommand ∨
        image2.writeResult oW = Except.error image2.Error.ErrorWritingImage ∨
        image2.writeResult oW = Except.ok ()) ∧
      (image2.encodeResult oW = Except.error image2.Error.UnableToExecuteCommand ∨
        image2.encodeResult oW = Except.error image2.Error.ErrorWritingImage ∨
        image2.encodeResult oW = Except.error image2.Error.InvalidImageData ∨
        ∃ bytes, image2.encodeResult oW = Except.ok bytes) := by
  intro oS T oR oW
  refine ⟨image2.shapeResult_cases oS, ?_, ?_, ?_⟩
  · rcases image2.shapeResult_cases oR.identify with herr | ⟨w, h, hok⟩
    · left
      simp [image2.readResult, herr]
    · rcases hc : oR.convert with _ | bytes
      · right; left
        simp [image2.readResult, hok, hc]
      · right; right
        simp [image2.readResult, hok, hc]
  · rcases oW with ⟨sp, wr, wa, dr⟩
    cases sp <;> cases wr <;> rcases wa with _ | c <;>
      simp [image2.writeResult]
  · rcases oW with ⟨sp, wr, wa, dr⟩
    cases sp <;> cases wr <;> rcases wa with _ | c <;> rcases dr with _ | bs <;>
      simp [image2.encodeResult]

/-- C10: `set_default(m)` makes `m` the global default whatever the old
value was; the free `read` and `write` behave exactly as the corresponding
method on the current default profile, while methods invoked on an
explicitly supplied `Magick` value take no global state at all. -/
theorem image2.default_profile_spec :
    ∀ (m old cur : image2.Magick) (T : image2.PixelType) (C : image2.Color)
      (path : String) (oR : image2.ReadOutcome) (w h : Nat) (oW : image2.RunOutcome),
      image2.set_default m old = m ∧
      image2.read (image2.set_default m old) T C path oR =
        image2.Magick.read m T C path oR ∧
      image2.write (image2.set_default m old) T C w h path oW =
        image2.Magick.write m T C w h path oW ∧
      image2.read cur T C path oR = image2.Magick.read cur T C path oR ∧
      image2.write cur T C w h path oW = image2.Magick.write cur T C w h path oW := by
  intro m old cur T C path oR w h oW
  exact ⟨rfl, rfl, rfl, rfl, rfl⟩

/-- C6: the configuration is a pure function of the resolution stored at
construction — fourcc tag `"RGB3"`, resolution `(width, height)`, interval
`(1, 30)` — `start` passes exactly `config(self.width, self.height)` to the
device, and `capture` wraps a copy of the frame's bytes together with the
frame's own reported resolution (and propagates a device error). -/
theorem image2.webcam_config_spec :
    ∀ (w h : Nat) (cam : image2.v4l.Webcam) (device : String) (f : image2.v4l.Frame),
      image2.v4l.Webcam.config w h =
        { format := "RGB3", resolution := (w, h), interval := (1, 30) } ∧
      image2.v4l.Webcam.new device w h = { width := w, height := h } ∧
      cam.startConfig = image2.v4l.Webcam.config cam.width cam.height ∧
      image2.v4l.Webcam.capture cam (some f) =
        some { width := f.resolution.1, height := f.resolution.2, data := f.data } ∧
      image2.v4l.Webcam.capture cam none = none := by
  intro w h cam device f
  exact ⟨rfl, rfl, rfl, rfl, rfl⟩

/-- C5 counterexample: a webcam constructed with resolution 640x480 whose
device delivers a frame reporting resolution (10, 20) yields a buffer of
shape (10, 20, 3), not (640, 480, 3): the code uses the frame's reported
resolution, not the configured one. -/
theorem image2.capture_shape_counterexample :
    (image2.v4l.Webcam.capture (image2.v4l.Webcam.new "/dev/video0" 640 480)
          (some { resolution := (10, 20), data := [] })).map
        (image2.ImageBuf.shape image2.Rgb) = some (10, 20, 3) ∧
      ((10, 20, 3) : Nat × Nat × Nat) ≠ ((640, 480, 3) : Nat × Nat × Nat) :=
  ⟨rfl, by decide⟩

/-- C5 (amended): every successful capture on any webcam returns a buffer
whose width and height equal the frame's own reported resolution and whose
channel count is 3 — whatever resolution the webcam was constructed with;
in particular, when the device delivers every frame at the configured
resolution, N captures yield N buffers of shape
(configured_width, configured_height, 3). -/
theorem image2.capture_shape_amended :
    ∀ (cam : image2.v4l.Webcam) (f : image2.v4l.Frame),
      ((image2.v4l.Webcam.capture cam (some f)).map (image2.ImageBuf.shape image2.Rgb) =
          some (f.resolution.1, f.resolution.2, 3)) ∧
        (∀ frames : List image2.v4l.Frame,
          (∀ g ∈ frames, g.resolution = (cam.width, cam.height)) →
          frames.map (fun g =>
              (image2.v4l.Webcam.capture cam (some g)).map
                (image2.ImageBuf.shape image2.Rgb)) =
            frames.map (fun _ => some (cam.width, cam.height, 3))) := by
  intro cam f
  have hone : ∀ (g : image2.v4l.Frame),
      (image2.v4l.Webcam.capture cam (some g)).map (image2.ImageBuf.shape image2.Rgb) =
        some (g.resolution.1, g.resolution.2, 3) := fun g => rfl
  refine ⟨hone f, ?_⟩
  intro frames hres
  induction frames with
  | nil => rfl
  | cons g gs ih =>
    have hg := hres g (List.mem_cons_self g gs)
    have hgs : ∀ x ∈ gs, x.resolution = (cam.width, cam.height) :=
      fun x hx => hres x (List.mem_cons_of_mem g hx)
    simp only [List.map_cons, ih hgs]
    congr 1
    rw [hone g, hg]

/-- C5 witness: a webcam configured 640x480 receiving a frame reported at
(10, 20) yields a buffer of shape (10, 20, 3), and receiving one frame at
the configured 640x480 yields one buffer of shape (640, 480, 3). -/
theorem image2.capture_shape_amended_witness :
    ((image2.v4l.Webcam.capture (image2.v4l.Webcam.new "/dev/video0" 640 480)
          (some { resolution := (10, 20), data := [0] })).map
        (image2.ImageBuf.shape image2.Rgb) = some (10, 20, 3)) ∧
      (∀ f ∈ [({ resolution := (640, 480), data := [] } : image2.v4l.Frame)],
          f.resolution = ((image2.v4l.Webcam.new "/dev/video0" 640 480).width,
            (image2.v4l.Webcam.new "/dev/video0" 640 480).height)) ∧
      [({ resolution := (640, 480), data := [] } : image2.v4l.Frame)].map (fun g =>
          (image2.v4l.Webcam.capture (image2.v4l.Webcam.new "/dev/video0" 640 480)
              (some g)).map (image2.ImageBuf.shape image2.Rgb)) =
        [({ resolution := (640, 480), data := [] } : image2.v4l.Frame)].map
          (fun _ => some ((image2.v4l.Webcam.new "/dev/video0" 640 480).width,
            (image2.v4l.Webcam.new "/dev/video0" 640 480).height, 3)) :=
  ⟨(image2.capture_shape_amended (image2.v4l.Webcam.new "/dev/video0" 640 480)
      { resolution := (10, 20), data := [0] }).1,
    by decide,
    (image2.capture_shape_amended (image2.v4l.Webcam.new "/dev/video0" 640 480)
        { resolution := (640, 480), data := [] }).2
      [{ resolution := (640, 480), data := [] }] (by decide)⟩
